import Mathlib

/-!
Shallow embedding of the py-androidbuild repository (src/android/build.py).

Conventions of the embedding:
* Python `None`-able string parameters become `Option String`; Python
  truthiness on such a value is `pyFalsy` (both `None` and `""` are falsy).
* `posixpath.join` / `posixpath.abspath` are modelled by `pathJoin` /
  `abspath` (normalization of `.` and `..` components is not modelled; no
  claim depends on it).  `abspath` takes the current working directory as an
  explicit parameter.
* Python dicts keyed by strings are association lists (`Dict`) with
  Python-dict semantics: `dset` overwrites in place or appends, `dget` looks
  up, `dictUpdate` is `dict.update`.
* The filesystem, where a claim needs it, is the set of existing paths,
  represented as a duplicate-free `List String`; directories are atomic
  entries (removing a tree removes its entry).
* External toolchain invocations (aapt, aidl, javac, dx, apkbuilder,
  zipalign, jarsigner) are black boxes per the spec's collaborator boundary:
  the build-stage methods record a `Stage` event carrying the arguments the
  code computes for them, and produce the artifact object the code wraps
  around the output path.  `zipalign` in `align` is modelled as creating its
  output file.
* `time.time()` interpolated into a string is an arbitrary `now : String`.
-/

/-- Python truthiness test for an optional string: `None` and `""` are
falsy (`if not x:`). -/
def pyFalsy : Option String → Bool
  | none => true
  | some s => decide (s = "")

/-- Whether a string starts with the character `/` (posix absolute path). -/
def startsSlash (s : String) : Bool := s.data.head? == some '/'

/-- Whether a string ends with the character `/`. -/
def endsSlash (s : String) : Bool := s.data.getLast? == some '/'

/-- Model of two-argument `posixpath.join`. -/
def pathJoin (a b : String) : String :=
  if startsSlash b then b
  else if a = "" then b
  else if endsSlash a then a ++ b
  else a ++ "/" ++ b

/-- Model of `posixpath.abspath` with an explicit current working
directory (component normalization elided). -/
def abspath (cwd s : String) : String :=
  if startsSlash s then s else pathJoin cwd s

/-- A Python string-keyed dict as an association list. -/
abbrev Dict := List (String × String)

/-- Python `d[k]` as an optional lookup. -/
def dget (d : Dict) (k : String) : Option String :=
  (d.find? (fun e => e.1 == k)).map (fun e => e.2)

/-- `dget` with a default, for lookups the code guarantees to succeed. -/
def dgetD (d : Dict) (k : String) : String := (dget d k).getD ""

/-- Python `d[k] = v`: overwrite in place, or append a new binding. -/
def dset (d : Dict) (k v : String) : Dict :=
  if d.any (fun e => e.1 == k) then
    d.map (fun e => if e.1 == k then (k, v) else e)
  else d ++ [(k, v)]

/-- Python `d.update(other)`. -/
def dictUpdate (d other : Dict) : Dict :=
  other.foldl (fun acc kv => dset acc kv.1 kv.2) d

/-- `CodeObj`: represents a .dex code file. -/
structure CodeObj where
  filename : String
  deriving DecidableEq

/-- `ResourceObj`: represents a packed resource package. -/
structure ResourceObj where
  filename : String
  deriving DecidableEq

/-- `Apk`: represents an APK file (the back-reference to the producing
platform is elided; no claim concerns it). -/
structure Apk where
  filename : String
  deriving DecidableEq

/-- The duck typing `apk.filename if isinstance(apk, Apk) else apk` used by
`sign`/`align`: either a typed `Apk` or a raw path string. -/
inductive PyApkOrStr where
  | apk (a : Apk)
  | str (s : String)
  deriving DecidableEq

/-- `infile = apk.filename if isinstance(apk, Apk) else apk`. -/
def PyApkOrStr.filenameOf : PyApkOrStr → String
  | .apk a => a.filename
  | .str s => s

/-- `PlatformTarget`: one resolved SDK platform version.  Tool wrapper
objects are represented by the resolved executable path each one is
constructed with. -/
structure PlatformTarget where
  version : String
  sdk_dir : String
  platform_dir : String
  dx : String
  aapt : String
  aidl : String
  zipalign : String
  apkbuilder : String
  javac : String
  jarsigner : String
  framework_library : String
  framework_aidl : String
  deriving DecidableEq

/-- The default tool path table built by `PlatformTarget.__init__`
(`w` is `sys.platform == 'win32'`). -/
def defaultPaths (sdk_dir : String) (w : Bool) : Dict :=
  [("aapt", pathJoin (pathJoin sdk_dir "platform-tools")
      (if w then "aapt.exe" else "aapt")),
   ("aidl", pathJoin (pathJoin sdk_dir "platform-tools")
      (if w then "aidl.exe" else "aidl")),
   ("dx", pathJoin (pathJoin sdk_dir "platform-tools")
      (if w then "dx.bat" else "dx")),
   ("apkbuilder", pathJoin (pathJoin sdk_dir "tools")
      (if w then "apkbuilder.bat" else "apkbuilder")),
   ("zipalign", pathJoin (pathJoin sdk_dir "tools")
      (if w then "zipalign.exe" else "zipalign")),
   ("jarsigner", "jarsigner"),
   ("javac", "javac")]

/-- `PlatformTarget.__init__(version, sdk_dir, platform_dir, custom_paths)`.
The second component of the result is the caller's `custom_paths` dict as it
stands after the constructor ran: the constructor builds a fresh `paths`
dict and merges `custom_paths` into that fresh dict (`paths.update(...)`),
so the argument dict itself is returned unchanged.  All seven tool keys are
present in `defaultPaths`, hence every `paths[k]` lookup succeeds and
`dgetD` never falls back to its default. -/
def PlatformTarget.init (version sdk_dir platform_dir : String) (w : Bool)
    (custom_paths : Dict) : PlatformTarget × Dict :=
  let paths := dictUpdate (defaultPaths sdk_dir w) custom_paths
  ({ version := version
     sdk_dir := sdk_dir
     platform_dir := platform_dir
     dx := dgetD paths "dx"
     aapt := dgetD paths "aapt"
     aidl := dgetD paths "aidl"
     zipalign := dgetD paths "zipalign"
     apkbuilder := dgetD paths "apkbuilder"
     javac := dgetD paths "javac"
     jarsigner := dgetD paths "jarsigner"
     framework_library := pathJoin platform_dir "android.jar"
     framework_aidl := pathJoin platform_dir "framework.aidl" }, custom_paths)

/-- One recorded build-stage invocation.  Each event carries the arguments
the code computes before handing off to the external tool wrapper
(fixed extras such as the framework include are elided). -/
inductive Stage where
  | generateR (manifest resource_dir output_dir : String)
  | compileAidl (source_dir output_dir : String)
  | compileJava (source_dirs : List String) (output_dir : String)
  | dex (source_dir output : String)
  | packResources (manifest resource_dir : String) (asset_dir : Option String)
      (output : String) (configurations : Option String)
  | buildApk (output : String) (dex : Option String) (zips : Option (List String))
  deriving DecidableEq

/-- `PlatformTarget.generate_r`: one aapt resource-id generation run. -/
def PlatformTarget.generate_r (t : List Stage)
    (manifest resource_dir output_dir : String) : List Stage :=
  t ++ [Stage.generateR manifest resource_dir output_dir]

/-- `PlatformTarget.compile_aidl`: the per-file aidl loop over
`source_dir`, recorded as one event for the directory. -/
def PlatformTarget.compile_aidl (t : List Stage)
    (source_dir output_dir : String) : List Stage :=
  t ++ [Stage.compileAidl source_dir output_dir]

/-- `PlatformTarget.compile_java`: one javac run over all files found in
`source_dirs`. -/
def PlatformTarget.compile_java (t : List Stage)
    (source_dirs : List String) (output_dir : String) : List Stage :=
  t ++ [Stage.compileJava source_dirs output_dir]

/-- `PlatformTarget.dex`: absolutizes the output path, runs dx, wraps the
result in a `CodeObj`. -/
def PlatformTarget.dex (cwd : String) (t : List Stage)
    (source_dir output : String) : List Stage × CodeObj :=
  let o := abspath cwd output
  (t ++ [Stage.dex source_dir o], { filename := o })

/-- `PlatformTarget.compile`: the composite stage pipeline
(resource-id generation, aidl, javac over source and generated source,
dexing), returning the dexing stage's `CodeObj`. -/
def PlatformTarget.compile (cwd : String) (t : List Stage)
    (dex_output manifest source_dir resource_dir source_gen_dir
      class_gen_dir : String) : List Stage × CodeObj :=
  let t1 := PlatformTarget.generate_r t manifest resource_dir source_gen_dir
  let t2 := PlatformTarget.compile_aidl t1 source_dir source_gen_dir
  let t3 := PlatformTarget.compile_java t2 [source_dir, source_gen_dir] class_gen_dir
  PlatformTarget.dex cwd t3 class_gen_dir dex_output

/-- `PlatformTarget.pack_resources`: absolutizes the output path, runs the
aapt package command, wraps the result in a `ResourceObj`. -/
def PlatformTarget.pack_resources (cwd : String) (t : List Stage)
    (manifest resource_dir : String) (asset_dir : Option String)
    (output : String) (configurations : Option String) :
    List Stage × ResourceObj :=
  let o := abspath cwd output
  (t ++ [Stage.packResources manifest resource_dir asset_dir o configurations],
   { filename := o })

/-- `PlatformTarget.build_apk`: absolutizes the output path, runs
apkbuilder with the unwrapped code and resource filenames, returns the
`Apk`. -/
def PlatformTarget.build_apk (cwd : String) (t : List Stage)
    (output : String) (code : Option CodeObj) (resources : Option ResourceObj) :
    List Stage × Apk :=
  let o := abspath cwd output
  (t ++ [Stage.buildApk o (code.map (fun c => c.filename))
            (resources.map (fun r => [r.filename]))],
   { filename := o })

/-- Insert a path into the filesystem (duplicate free). -/
def fsInsert (fs : List String) (p : String) : List String :=
  if p ∈ fs then fs else p :: fs

/-- Remove a path from the filesystem. -/
def fsRemove (fs : List String) (p : String) : List String :=
  fs.filter (fun q => q != p)

/-- `PlatformTarget.align(apk, output=None)` over the filesystem model.
When `output` is falsy the code binds
`outfile = "%s.align.%s" % (infile, time.time())`, lets zipalign write that
file, renames it over `infile` and returns the `apk` argument itself.  When
`output` is truthy the local `outfile` is never assigned, so its first use
in the zipalign call raises `UnboundLocalError` (the dead `else` branch of
the source would also read the unassigned `outfile`). -/
def PlatformTarget.align (fs : List String) (apk : PyApkOrStr)
    (output : Option String) (now : String) :
    Except String (List String × PyApkOrStr) :=
  let infile := apk.filenameOf
  if pyFalsy output then
    let o := infile ++ ".align." ++ now
    let fs1 := fsInsert fs o
    let fs2 := fsInsert (fsRemove fs1 o) infile
    Except.ok (fs2, apk)
  else
    Except.error "UnboundLocalError: outfile referenced before assignment"

/-- `AndroidProject`: the project facade.  `code = none` models the `code`
attribute not existing yet (`hasattr(self, 'code')`). -/
structure AndroidProject where
  manifest : String
  name : String
  resource_dir : String
  gen_dir : String
  source_dir : String
  out_dir : String
  asset_dir : String
  code : Option CodeObj
  deriving DecidableEq

/-- `AndroidProject.compile`: delegates to the platform's composite compile
with the project's standard directories, stores the resulting `CodeObj` in
the `code` attribute, and (having no `return` statement) returns `None`,
modelled as the last component of the result. -/
def AndroidProject.compile (cwd : String) (p : AndroidProject)
    (t : List Stage) : AndroidProject × List Stage × Option CodeObj :=
  let r := PlatformTarget.compile cwd t
    (pathJoin p.out_dir "classes.dex") p.manifest p.source_dir
    p.resource_dir p.gen_dir (pathJoin p.out_dir "classes")
  ({ p with code := some r.2 }, r.1, none)

/-- `AndroidProject.build(output=None, config=None)`.  `assetExists` models
`path.exists(self.asset_dir)`.  The `output` parameter of the source is
accepted and, as in the source, never used. -/
def AndroidProject.build (cwd : String) (assetExists : Bool)
    (p : AndroidProject) (t : List Stage) (_output : Option String)
    (config : Option String) : AndroidProject × List Stage × Apk :=
  let pc :=
    if p.code.isNone then
      let r := AndroidProject.compile cwd p t
      (r.1, r.2.1)
    else (p, t)
  let p1 := pc.1
  let t1 := pc.2
  let resource_filename :=
    if pyFalsy config then pathJoin p1.out_dir (p1.name ++ ".ap_")
    else pathJoin p1.out_dir (p1.name ++ "." ++ config.getD "" ++ ".ap_")
  let pr := PlatformTarget.pack_resources cwd t1 p1.manifest p1.resource_dir
    (if assetExists then some p1.asset_dir else none) resource_filename config
  let ba := PlatformTarget.build_apk cwd pr.1
    (pathJoin p1.out_dir (p1.name ++ ".apk")) p1.code (some pr.2)
  (p1, ba.1, ba.2)

/-- `AndroidProject.clean`: the two guarded `shutil.rmtree` calls, exactly
as written in the source — note that the second guard re-tests
`self.out_dir`, not `self.gen_dir`. -/
def AndroidProject.clean (fs : List String) (p : AndroidProject) :
    List String :=
  let fs1 := if p.out_dir ∈ fs then fsRemove fs p.out_dir else fs
  if p.out_dir ∈ fs1 then fsRemove fs1 p.gen_dir else fs1

/-- The characters after the last `-` in a character list, or `none` when
no `-` occurs. -/
def afterLastDashChars : List Char → Option (List Char)
  | [] => none
  | c :: cs =>
    match afterLastDashChars cs with
    | some r => some r
    | none => if c = '-' then some cs else none

/-- `p.rsplit('-', 1)[1]`: the part after the last dash, or a Python
`IndexError` (`none`) when the string contains no dash. -/
def afterLastDash (s : String) : Option String :=
  (afterLastDashChars s.data).map (fun l => String.mk l)

/-- The `platforms` dict built by `get_platform`: directory entries of
`<sdk>/platforms` (paired with their `isdir` status) are filtered to
directories, joined into full paths, and keyed by the version suffix after
the last dash.  `none` models the `IndexError` raised when some platform
path contains no dash. -/
def platformsDict (sdk_path : String) (entries : List (String × Bool)) :
    Option Dict :=
  let names := (entries.filter (fun e => e.2)).map (fun e => e.1)
  let paths := names.map (fun e => pathJoin (pathJoin sdk_path "platforms") e)
  (paths.mapM (fun p => (afterLastDash p).map (fun suf => (suf, p)))).map
    (fun pairs => pairs.foldl (fun d kv => dset d kv.1 kv.2) [])

/-- Lexicographic less-or-equal on character lists, comparing code
points — the order CPython uses to compare strings. -/
def charListLe : List Char → List Char → Bool
  | [], _ => true
  | _ :: _, [] => false
  | a :: as, b :: bs =>
    if a.toNat < b.toNat then true
    else if b.toNat < a.toNat then false
    else charListLe as bs

/-- Python string comparison `a <= b` (lexicographic by code point). -/
def strLe (a b : String) : Bool := charListLe a.data b.data

/-- Python `sorted` on a list of strings (ascending; the sorted permutation
under the total order on strings is unique, so any correct sort agrees with
CPython's). -/
def pySorted (l : List String) : List String :=
  l.insertionSort (fun a b => strLe a b = true)

/-- `get_platform(sdk_path, target=None)`. -/
def get_platform (w : Bool) (sdk_path : String)
    (entries : List (String × Bool)) (target : Option String) :
    Except String PlatformTarget :=
  match platformsDict sdk_path entries with
  | none => Except.error "IndexError: list index out of range"
  | some platforms =>
    let tgt : Except String String :=
      if pyFalsy target then
        match (pySorted (platforms.map (fun e => e.1))).getLast? with
        | none => Except.error "IndexError: list index out of range"
        | some t => Except.ok t
      else Except.ok (target.getD "")
    match tgt with
    | Except.error e => Except.error e
    | Except.ok t =>
      match dget platforms t with
      | none => Except.error ("target \"" ++ t ++ "\" not found in \"" ++
          sdk_path ++ "\"")
      | some target_root =>
        Except.ok (PlatformTarget.init t sdk_path target_root w []).1

/-! ### Helper lemmas -/

theorem startsSlash_ne_empty {s : String} (h : startsSlash s = true) :
    s ≠ "" := by
  intro he
  subst he
  exact absurd h (by decide)

theorem ne_empty_data {s : String} (h : s ≠ "") : s.data ≠ [] := by
  intro hd
  exact h (String.ext (by rw [hd]))

theorem append_ne_empty (a b : String) (h : a ≠ "") : a ++ b ≠ "" := by
  intro hc
  apply h
  apply String.ext
  have hd := congrArg String.data hc
  rw [String.data_append, show ("" : String).data = [] from rfl] at hd
  exact (List.append_eq_nil.mp hd).1

theorem startsSlash_append {a : String} (b : String) (h : a ≠ "") :
    startsSlash (a ++ b) = startsSlash a := by
  unfold startsSlash
  rw [String.data_append]
  obtain ⟨c, cs, hcs⟩ : ∃ c cs, a.data = c :: cs := by
    cases hda : a.data with
    | nil => exact absurd hda (ne_empty_data h)
    | cons c cs => exact ⟨c, cs, rfl⟩
  rw [hcs]
  rfl

theorem pathJoin_rel {a b : String} (hb : startsSlash b = false) (ha : a ≠ "")
    (he : endsSlash a = false) : pathJoin a b = a ++ "/" ++ b := by
  simp [pathJoin, hb, ha, he]

theorem abspath_of_abs {s : String} (cwd : String) (h : startsSlash s = true) :
    abspath cwd s = s := by
  simp [abspath, h]

theorem mem_fsInsert {x p : String} {fs : List String} :
    x ∈ fsInsert fs p ↔ x = p ∨ x ∈ fs := by
  unfold fsInsert
  by_cases h : p ∈ fs
  · simp only [if_pos h]
    constructor
    · exact Or.inr
    · rintro (rfl | hx)
      · exact h
      · exact hx
  · simp [if_neg h, List.mem_cons]

theorem mem_fsRemove {x p : String} {fs : List String} :
    x ∈ fsRemove fs p ↔ x ∈ fs ∧ x ≠ p := by
  simp [fsRemove, List.mem_filter, bne_iff_ne]

/-! ### Claims C1, C2, C3 -/

/-- C1: stated over the code as written, aligning a package to a distinct
explicit output path does NOT produce a new package at that path: the local
`outfile` is assigned only on the no-output branch, so the zipalign call
raises `UnboundLocalError`.  This theorem evaluates the embedded `align` at
a concrete package and explicit output path and shows the raised error. -/
theorem align_explicit_output_raises :
    PlatformTarget.align ["/p/app.apk"]
      (PyApkOrStr.apk { filename := "/p/app.apk" })
      (some "/p/app-aligned.apk") "1700000000.0" =
    Except.error "UnboundLocalError: outfile referenced before assignment" := rfl

/-- C2: stated over the code as written, `clean()` does not remove the
generated-source directory when it is present: the second guard re-tests
the output directory, which no longer exists after the first branch.  At a
concrete filesystem holding both directories, cleaning removes only the
output directory and leaves the generated-source directory behind. -/
theorem clean_leaves_gen_dir :
    AndroidProject.clean ["/p/bin", "/p/gen"]
      { manifest := "/p/AndroidManifest.xml", name := "app",
        resource_dir := "/p/res", gen_dir := "/p/gen", source_dir := "/p/src",
        out_dir := "/p/bin", asset_dir := "/p/asset", code := none } =
    ["/p/gen"] := by decide

/-- C3: aligning a package file with no explicit output path writes the
aligned copy to the time-suffixed sibling `<file>.align.<now>`, renames it
over the original, and returns the very package argument it was given;
afterwards the original path exists and the time-suffixed sibling does
not. -/
theorem align_in_place (fs : List String) (apk : PyApkOrStr) (now : String)
    (h : apk.filenameOf ∈ fs) :
    ∃ fs2, PlatformTarget.align fs apk none now = Except.ok (fs2, apk) ∧
      apk.filenameOf ∈ fs2 ∧ apk.filenameOf ++ ".align." ++ now ∉ fs2 := by
  refine ⟨_, rfl, ?_, ?_⟩
  · exact mem_fsInsert.mpr (Or.inl rfl)
  · intro hm
    rcases mem_fsInsert.mp hm with heq | hmem
    · have hlen := congrArg String.length heq
      rw [String.length_append, String.length_append,
        show (".align." : String).length = 7 from rfl] at hlen
      omega
    · rw [mem_fsRemove] at hmem
      exact hmem.2 rfl

/-- Witness for C3 at a concrete one-file filesystem. -/
theorem align_in_place_witness :
    (PyApkOrStr.apk { filename := "app.apk" }).filenameOf ∈ ["app.apk"] ∧
    (∃ fs2, PlatformTarget.align ["app.apk"]
        (PyApkOrStr.apk { filename := "app.apk" }) none "1" =
        Except.ok (fs2, PyApkOrStr.apk { filename := "app.apk" }) ∧
      (PyApkOrStr.apk { filename := "app.apk" }).filenameOf ∈ fs2 ∧
      (PyApkOrStr.apk { filename := "app.apk" }).filenameOf ++ ".align." ++ "1" ∉ fs2) :=
  ⟨by decide, align_in_place ["app.apk"]
    (PyApkOrStr.apk { filename := "app.apk" }) "1" (by decide)⟩

/-! ### Trace lemmas and claims C7, C9, C6 -/

theorem platform_compile_trace (cwd : String) (t : List Stage)
    (dex_output manifest source_dir resource_dir source_gen_dir
      class_gen_dir : String) :
    PlatformTarget.compile cwd t dex_output manifest source_dir resource_dir
      source_gen_dir class_gen_dir =
    (t ++ [Stage.generateR manifest resource_dir source_gen_dir,
           Stage.compileAidl source_dir source_gen_dir,
           Stage.compileJava [source_dir, source_gen_dir] class_gen_dir,
           Stage.dex class_gen_dir (abspath cwd dex_output)],
     { filename := abspath cwd dex_output }) := by
  simp [PlatformTarget.compile, PlatformTarget.generate_r,
    PlatformTarget.compile_aidl, PlatformTarget.compile_java,
    PlatformTarget.dex]

/-- C7: the composite compile runs exactly the stages
generate-resource-ids, compile-interfaces, compile-sources (over the
original source directory and the generated-source directory), and
bytecode conversion, in that order, and returns the `CodeObj` produced by
the bytecode-conversion stage for the absolutized dex output path. -/
theorem platform_compile_stage_order (cwd : String) (t : List Stage)
    (dex_output manifest source_dir resource_dir source_gen_dir
      class_gen_dir : String) :
    PlatformTarget.compile cwd t dex_output manifest source_dir resource_dir
      source_gen_dir class_gen_dir =
    (t ++ [Stage.generateR manifest resource_dir source_gen_dir,
           Stage.compileAidl source_dir source_gen_dir,
           Stage.compileJava [source_dir, source_gen_dir] class_gen_dir,
           Stage.dex class_gen_dir (abspath cwd dex_output)],
     { filename := abspath cwd dex_output }) :=
  platform_compile_trace cwd t dex_output manifest source_dir resource_dir
    source_gen_dir class_gen_dir

/-- C9: the project facade's `compile()` has no `return` statement, so its
Python return value is `None`; the compiled artifact is reachable only via
the cached `code` attribute. -/
theorem project_compile_returns_none (cwd : String) (p : AndroidProject)
    (t : List Stage) :
    (AndroidProject.compile cwd p t).2.2 = none := rfl

/-- Recognizer for the underlying Java-compilation stage. -/
def isJavacStage : Stage → Bool
  | .compileJava _ _ => true
  | _ => false

/-- Number of Java-compilation stage invocations recorded in a trace. -/
def countJavac (t : List Stage) : Nat := t.countP isJavacStage

theorem countJavac_append (t s : List Stage) :
    countJavac (t ++ s) = countJavac t + countJavac s :=
  List.countP_append isJavacStage t s

theorem countJavac_project_compile (cwd : String) (p : AndroidProject)
    (t : List Stage) :
    countJavac (AndroidProject.compile cwd p t).2.1 = countJavac t + 1 := by
  simp [AndroidProject.compile, platform_compile_trace, countJavac_append,
    countJavac, List.countP_cons, isJavacStage]

theorem project_compile_code_isSome (cwd : String) (p : AndroidProject)
    (t : List Stage) :
    (AndroidProject.compile cwd p t).1.code.isNone = false := rfl

theorem build_of_code_some (cwd : String) (assetExists : Bool)
    (p : AndroidProject) (t : List Stage) (out config : Option String)
    (h : p.code.isNone = false) :
    (AndroidProject.build cwd assetExists p t out config).1 = p ∧
    countJavac (AndroidProject.build cwd assetExists p t out config).2.1 =
      countJavac t := by
  constructor
  · simp [AndroidProject.build, h, PlatformTarget.pack_resources,
      PlatformTarget.build_apk]
  · simp [AndroidProject.build, h, PlatformTarget.pack_resources,
      PlatformTarget.build_apk, countJavac_append, countJavac,
      List.countP_cons, isJavacStage]

/-- C6: starting from a project with no cached code artifact, two explicit
`compile()` calls invoke the underlying Java-compilation stage twice,
whereas one `compile()` followed by two `build()` calls invokes it exactly
once — `build()` reuses the cached code artifact, every explicit
`compile()` recompiles. -/
theorem compile_twice_vs_build_twice (cwd : String) (assetExists : Bool)
    (cfg : Option String) (p0 : AndroidProject) (h : p0.code = none) :
    (let r1 := AndroidProject.compile cwd p0 []
     let r2 := AndroidProject.compile cwd r1.1 r1.2.1
     countJavac r2.2.1 = 2)
    ∧
    (let r1 := AndroidProject.compile cwd p0 []
     let b1 := AndroidProject.build cwd assetExists r1.1 r1.2.1 none cfg
     let b2 := AndroidProject.build cwd assetExists b1.1 b1.2.1 none cfg
     countJavac b2.2.1 = 1) := by
  constructor
  · show countJavac (AndroidProject.compile cwd
      (AndroidProject.compile cwd p0 []).1
      (AndroidProject.compile cwd p0 []).2.1).2.1 = 2
    rw [countJavac_project_compile, countJavac_project_compile]
    rfl
  · show countJavac (AndroidProject.build cwd assetExists
      (AndroidProject.build cwd assetExists (AndroidProject.compile cwd p0 []).1
        (AndroidProject.compile cwd p0 []).2.1 none cfg).1
      (AndroidProject.build cwd assetExists (AndroidProject.compile cwd p0 []).1
        (AndroidProject.compile cwd p0 []).2.1 none cfg).2.1 none cfg).2.1 = 1
    have h1 := build_of_code_some cwd assetExists
      (AndroidProject.compile cwd p0 []).1
      (AndroidProject.compile cwd p0 []).2.1 none cfg
      (project_compile_code_isSome cwd p0 [])
    have h2 := build_of_code_some cwd assetExists
      (AndroidProject.build cwd assetExists (AndroidProject.compile cwd p0 []).1
        (AndroidProject.compile cwd p0 []).2.1 none cfg).1
      (AndroidProject.build cwd assetExists (AndroidProject.compile cwd p0 []).1
        (AndroidProject.compile cwd p0 []).2.1 none cfg).2.1 none cfg
      (by rw [h1.1]; exact project_compile_code_isSome cwd p0 [])
    rw [h2.2, h1.2, countJavac_project_compile]
    rfl

/-- Witness for C6 at a concrete fresh project. -/
theorem compile_twice_vs_build_twice_witness :
    ({ manifest := "/p/AndroidManifest.xml", name := "app",
       resource_dir := "/p/res", gen_dir := "/p/gen", source_dir := "/p/src",
       out_dir := "/p/bin", asset_dir := "/p/asset",
       code := none } : AndroidProject).code = none ∧
    ((let r1 := AndroidProject.compile "/cwd"
        { manifest := "/p/AndroidManifest.xml", name := "app",
          resource_dir := "/p/res", gen_dir := "/p/gen",
          source_dir := "/p/src", out_dir := "/p/bin",
          asset_dir := "/p/asset", code := none } []
      let r2 := AndroidProject.compile "/cwd" r1.1 r1.2.1
      countJavac r2.2.1 = 2)
     ∧
     (let r1 := AndroidProject.compile "/cwd"
        { manifest := "/p/AndroidManifest.xml", name := "app",
          resource_dir := "/p/res", gen_dir := "/p/gen",
          source_dir := "/p/src", out_dir := "/p/bin",
          asset_dir := "/p/asset", code := none } []
      let b1 := AndroidProject.build "/cwd" false r1.1 r1.2.1 none none
      let b2 := AndroidProject.build "/cwd" false b1.1 b1.2.1 none none
      countJavac b2.2.1 = 1)) :=
  ⟨rfl, compile_twice_vs_build_twice "/cwd" false none
    { manifest := "/p/AndroidManifest.xml", name := "app",
      resource_dir := "/p/res", gen_dir := "/p/gen", source_dir := "/p/src",
      out_dir := "/p/bin", asset_dir := "/p/asset", code := none } rfl⟩

/-! ### Claim C8 -/

/-- The resource-archive output paths recorded in a trace. -/
def resourceOutputs (t : List Stage) : List String :=
  t.filterMap (fun s => match s with
    | Stage.packResources _ _ _ o _ => some o
    | _ => none)

theorem resourceOutputs_append (t s : List Stage) :
    resourceOutputs (t ++ s) = resourceOutputs t ++ resourceOutputs s :=
  List.filterMap_append t s _

/-- C8: on every `build()` call, the intermediate resource archive is
written to `<out>/<name>.ap_` when no configuration is given and to
`<out>/<name>.<config>.ap_` when one is given, while the final package path
is `<out>/<name>.apk` in both cases — the first conjunct holds for every
`cfg`, so the configuration never affects the package filename.  The
hypotheses say the output directory is a well-formed absolute directory
path and the project name is a nonempty relative name. -/
theorem build_output_paths (cwd : String) (assetExists : Bool)
    (p : AndroidProject) (t : List Stage) (out cfg : Option String)
    (ho1 : startsSlash p.out_dir = true) (ho2 : endsSlash p.out_dir = false)
    (hn0 : p.name ≠ "") (hn1 : startsSlash p.name = false) :
    (AndroidProject.build cwd assetExists p t out cfg).2.2.filename =
      p.out_dir ++ "/" ++ p.name ++ ".apk"
    ∧ (pyFalsy cfg = true →
        resourceOutputs (AndroidProject.build cwd assetExists p t out cfg).2.1 =
          resourceOutputs t ++ [p.out_dir ++ "/" ++ p.name ++ ".ap_"])
    ∧ (∀ c, cfg = some c → c ≠ "" →
        resourceOutputs (AndroidProject.build cwd assetExists p t out cfg).2.1 =
          resourceOutputs t ++ [p.out_dir ++ "/" ++ p.name ++ "." ++ c ++ ".ap_"]) := by
  have hod : p.out_dir ≠ "" := startsSlash_ne_empty ho1
  have hkey : ∀ x : String,
      abspath cwd (pathJoin p.out_dir (p.name ++ x)) =
        p.out_dir ++ "/" ++ (p.name ++ x) := by
    intro x
    have hx : startsSlash (p.name ++ x) = false := by
      rw [startsSlash_append x hn0]
      exact hn1
    rw [pathJoin_rel hx hod ho2]
    apply abspath_of_abs
    rw [startsSlash_append (p.name ++ x) (append_ne_empty p.out_dir "/" hod),
      startsSlash_append "/" hod]
    exact ho1
  refine ⟨?_, ?_, ?_⟩
  · cases hcode : p.code with
    | none =>
      simp [AndroidProject.build, AndroidProject.compile, hcode,
        PlatformTarget.compile, PlatformTarget.generate_r,
        PlatformTarget.compile_aidl, PlatformTarget.compile_java,
        PlatformTarget.dex, PlatformTarget.pack_resources,
        PlatformTarget.build_apk, hkey, String.append_assoc]
    | some c0 =>
      simp [AndroidProject.build, hcode, PlatformTarget.pack_resources,
        PlatformTarget.build_apk, hkey, String.append_assoc]
  · intro hcfg
    cases hcode : p.code with
    | none =>
      simp [AndroidProject.build, AndroidProject.compile, hcode, hcfg,
        PlatformTarget.compile, PlatformTarget.generate_r,
        PlatformTarget.compile_aidl, PlatformTarget.compile_java,
        PlatformTarget.dex, PlatformTarget.pack_resources,
        PlatformTarget.build_apk, hkey, resourceOutputs,
        List.filterMap_append, List.filterMap_cons, List.filterMap_nil,
        String.append_assoc]
    | some c0 =>
      simp [AndroidProject.build, hcode, hcfg,
        PlatformTarget.pack_resources, PlatformTarget.build_apk, hkey,
        resourceOutputs, List.filterMap_append, List.filterMap_cons,
        List.filterMap_nil, String.append_assoc]
  · intro c hceq hcne
    have hf : pyFalsy (some c) = false := by
      simp [pyFalsy, hcne]
    cases hcode : p.code with
    | none =>
      simp [AndroidProject.build, AndroidProject.compile, hcode, hf, hceq,
        PlatformTarget.compile, PlatformTarget.generate_r,
        PlatformTarget.compile_aidl, PlatformTarget.compile_java,
        PlatformTarget.dex, PlatformTarget.pack_resources,
        PlatformTarget.build_apk, hkey, resourceOutputs,
        List.filterMap_append, List.filterMap_cons, List.filterMap_nil,
        String.append_assoc]
    | some c0 =>
      simp [AndroidProject.build, hcode, hf, hceq,
        PlatformTarget.pack_resources, PlatformTarget.build_apk, hkey,
        resourceOutputs, List.filterMap_append, List.filterMap_cons,
        List.filterMap_nil, String.append_assoc]

/-- Witness for C8 at a concrete project with `config = "de"`. -/
theorem build_output_paths_witness :
    startsSlash ("/p/bin" : String) = true ∧
    endsSlash ("/p/bin" : String) = false ∧
    ("com.example.app" : String) ≠ "" ∧
    startsSlash ("com.example.app" : String) = false ∧
    ((AndroidProject.build "/cwd" false
        { manifest := "/p/AndroidManifest.xml", name := "com.example.app",
          resource_dir := "/p/res", gen_dir := "/p/gen",
          source_dir := "/p/src", out_dir := "/p/bin",
          asset_dir := "/p/asset", code := none } [] none
        (some "de")).2.2.filename =
      "/p/bin" ++ "/" ++ "com.example.app" ++ ".apk"
    ∧ (pyFalsy (some "de") = true →
        resourceOutputs (AndroidProject.build "/cwd" false
          { manifest := "/p/AndroidManifest.xml", name := "com.example.app",
            resource_dir := "/p/res", gen_dir := "/p/gen",
            source_dir := "/p/src", out_dir := "/p/bin",
            asset_dir := "/p/asset", code := none } [] none
          (some "de")).2.1 =
          resourceOutputs [] ++ ["/p/bin" ++ "/" ++ "com.example.app" ++ ".ap_"])
    ∧ (∀ c, (some "de" : Option String) = some c → c ≠ "" →
        resourceOutputs (AndroidProject.build "/cwd" false
          { manifest := "/p/AndroidManifest.xml", name := "com.example.app",
            resource_dir := "/p/res", gen_dir := "/p/gen",
            source_dir := "/p/src", out_dir := "/p/bin",
            asset_dir := "/p/asset", code := none } [] none
          (some "de")).2.1 =
          resourceOutputs [] ++
            ["/p/bin" ++ "/" ++ "com.example.app" ++ "." ++ c ++ ".ap_"])) :=
  ⟨by decide, by decide, by decide, by decide,
   build_output_paths "/cwd" false
    { manifest := "/p/AndroidManifest.xml", name := "com.example.app",
      resource_dir := "/p/res", gen_dir := "/p/gen", source_dir := "/p/src",
      out_dir := "/p/bin", asset_dir := "/p/asset", code := none } [] none
    (some "de") (by decide) (by decide) (by decide) (by decide)⟩

/-! ### Dict and string-order lemmas for the platform resolver -/

theorem charListLe_refl : ∀ (l : List Char), charListLe l l = true
  | [] => rfl
  | a :: l => by simp [charListLe, charListLe_refl l]

theorem strLe_refl (s : String) : strLe s s = true :=
  charListLe_refl s.data

theorem charListLe_total : ∀ (as bs : List Char),
    charListLe as bs = true ∨ charListLe bs as = true
  | [], _ => Or.inl rfl
  | _ :: _, [] => Or.inr rfl
  | a :: as, b :: bs => by
    rcases Nat.lt_trichotomy a.toNat b.toNat with h | h | h
    · left
      simp [charListLe, h]
    · rcases charListLe_total as bs with hr | hr
      · left
        simp [charListLe, h, hr]
      · right
        simp [charListLe, h, hr]
    · right
      simp [charListLe, h]

theorem charListLe_trans : ∀ (as bs cs : List Char),
    charListLe as bs = true → charListLe bs cs = true →
    charListLe as cs = true
  | [], _, _ => by
    intro h1 h2
    rfl
  | a :: as, [], cs => by
    intro h1 h2
    simp [charListLe] at h1
  | a :: as, b :: bs, [] => by
    intro h1 h2
    simp [charListLe] at h2
  | a :: as, b :: bs, c :: cs => by
    intro h1 h2
    simp only [charListLe] at h1 h2 ⊢
    have H1 : a.toNat < b.toNat ∨
        (a.toNat = b.toNat ∧ charListLe as bs = true) := by
      by_cases hx : a.toNat < b.toNat
      · exact Or.inl hx
      · by_cases hy : b.toNat < a.toNat
        · rw [if_neg hx, if_pos hy] at h1
          cases h1
        · exact Or.inr ⟨by omega, by rwa [if_neg hx, if_neg hy] at h1⟩
    have H2 : b.toNat < c.toNat ∨
        (b.toNat = c.toNat ∧ charListLe bs cs = true) := by
      by_cases hx : b.toNat < c.toNat
      · exact Or.inl hx
      · by_cases hy : c.toNat < b.toNat
        · rw [if_neg hx, if_pos hy] at h2
          cases h2
        · exact Or.inr ⟨by omega, by rwa [if_neg hx, if_neg hy] at h2⟩
    rcases H1 with h1a | ⟨e1, r1⟩ <;> rcases H2 with h2a | ⟨e2, r2⟩
    · rw [if_pos (h1a.trans h2a)]
    · rw [if_pos (show a.toNat < c.toNat by omega)]
    · rw [if_pos (show a.toNat < c.toNat by omega)]
    · rw [if_neg (show ¬ a.toNat < c.toNat by omega),
        if_neg (show ¬ c.toNat < a.toNat by omega)]
      exact charListLe_trans as bs cs r1 r2

instance : IsTotal String (fun a b => strLe a b = true) :=
  ⟨fun a b => charListLe_total a.data b.data⟩

instance : IsTrans String (fun a b => strLe a b = true) :=
  ⟨fun a b c => charListLe_trans a.data b.data c.data⟩

theorem dget_cons (a : String × String) (rest : Dict) (k : String) :
    dget (a :: rest) k = if a.1 == k then some a.2 else dget rest k := by
  by_cases h : (a.1 == k) = true
  · unfold dget
    rw [@List.find?_cons_of_pos (String × String) (fun e => e.1 == k) a rest h,
      if_pos h]
    rfl
  · unfold dget
    rw [@List.find?_cons_of_neg (String × String) (fun e => e.1 == k) a rest h,
      if_neg h]

theorem dget_some_of_mem_keys (d : Dict) (k : String)
    (h : k ∈ d.map (fun e => e.1)) : ∃ v, dget d k = some v := by
  induction d with
  | nil => simp at h
  | cons a rest ih =>
    rw [dget_cons]
    by_cases hk : (a.1 == k) = true
    · exact ⟨a.2, by rw [if_pos hk]⟩
    · rw [List.map_cons, List.mem_cons] at h
      rcases h with h1 | h2
      · exact absurd (beq_iff_eq.mpr h1.symm) hk
      · obtain ⟨v, hv⟩ := ih h2
        exact ⟨v, by rw [if_neg hk]; exact hv⟩

theorem getLast?_mem_str : ∀ (l : List String) (m : String),
    l.getLast? = some m → m ∈ l
  | [], m => by simp
  | [a], m => by
    intro h
    rw [List.getLast?_singleton, Option.some.injEq] at h
    simp [h]
  | a :: b :: rest, m => by
    intro h
    rw [List.getLast?_cons_cons] at h
    exact List.mem_cons_of_mem a (getLast?_mem_str (b :: rest) m h)

theorem sorted_le_getLast : ∀ (l : List String),
    l.Sorted (fun a b => strLe a b = true) → ∀ m, l.getLast? = some m →
    ∀ x ∈ l, strLe x m = true
  | [] => by simp
  | [a] => by
    intro hs m hm x hx
    rw [List.getLast?_singleton, Option.some.injEq] at hm
    rw [List.mem_singleton] at hx
    rw [hx, hm]
    exact strLe_refl m
  | a :: b :: rest => by
    intro hs m hm x hx
    rw [List.sorted_cons] at hs
    rw [List.getLast?_cons_cons] at hm
    rcases List.mem_cons.mp hx with rfl | hx2
    · exact hs.1 m (getLast?_mem_str (b :: rest) m hm)
    · exact sorted_le_getLast (b :: rest) hs.2 m hm x hx2

/-! ### Claims C4, C5, C10 -/

/-- C4: with installed platforms present and no explicit target,
`get_platform` succeeds and returns the platform whose version identifier
is the maximum of the installed version identifiers under the lexicographic
(code-point) string order used by Python's `sorted` (being a function of
its inputs, the selection is deterministic). -/
theorem get_platform_default_selects_max (w : Bool) (sdk_path : String)
    (entries : List (String × Bool)) (d : Dict)
    (hd : platformsDict sdk_path entries = some d) (hne : d ≠ []) :
    ∃ pt, get_platform w sdk_path entries none = Except.ok pt ∧
      pt.version ∈ d.map (fun e => e.1) ∧
      ∀ k ∈ d.map (fun e => e.1), strLe k pt.version = true := by
  have hperm := List.perm_insertionSort (fun a b : String => strLe a b = true)
    (d.map (fun e => e.1))
  have hsort := List.sorted_insertionSort (fun a b : String => strLe a b = true)
    (d.map (fun e => e.1))
  have hskne : pySorted (d.map (fun e => e.1)) ≠ [] := by
    intro h0
    apply hne
    have hl := hperm.length_eq
    unfold pySorted at h0
    rw [h0] at hl
    simp only [List.length_nil, List.length_map] at hl
    exact List.length_eq_zero.mp hl.symm
  obtain ⟨m, hm⟩ : ∃ m, (pySorted (d.map (fun e => e.1))).getLast? = some m := by
    cases hg : (pySorted (d.map (fun e => e.1))).getLast? with
    | some m => exact ⟨m, rfl⟩
    | none => exact absurd (List.getLast?_eq_none_iff.mp hg) hskne
  have hmem : m ∈ pySorted (d.map (fun e => e.1)) :=
    getLast?_mem_str _ m hm
  have hmax : ∀ x ∈ pySorted (d.map (fun e => e.1)), strLe x m = true :=
    sorted_le_getLast _ hsort m hm
  have hkmem : m ∈ d.map (fun e => e.1) := hperm.subset hmem
  obtain ⟨v, hv⟩ := dget_some_of_mem_keys d m hkmem
  refine ⟨(PlatformTarget.init m sdk_path v w []).1, ?_, ?_, ?_⟩
  · simp [get_platform, hd, pyFalsy, hm, hv]
  · exact hkmem
  · intro k hk
    exact hmax k (hperm.mem_iff.mpr hk)

/-- Witness for C4 with platforms android-9 and android-10 installed (the
lexicographic maximum of the version identifiers 9 and 10 is "9"). -/
theorem get_platform_default_max_witness :
    platformsDict "/sdk" [("android-9", true), ("android-10", true)] =
      some [("9", "/sdk/platforms/android-9"),
            ("10", "/sdk/platforms/android-10")] ∧
    ([("9", "/sdk/platforms/android-9"),
      ("10", "/sdk/platforms/android-10")] : Dict) ≠ [] ∧
    (∃ pt, get_platform false "/sdk"
        [("android-9", true), ("android-10", true)] none = Except.ok pt ∧
      pt.version ∈ ([("9", "/sdk/platforms/android-9"),
        ("10", "/sdk/platforms/android-10")] : Dict).map (fun e => e.1) ∧
      ∀ k ∈ ([("9", "/sdk/platforms/android-9"),
        ("10", "/sdk/platforms/android-10")] : Dict).map (fun e => e.1),
        strLe k pt.version = true) :=
  ⟨by decide, by decide,
   get_platform_default_selects_max false "/sdk"
    [("android-9", true), ("android-10", true)]
    [("9", "/sdk/platforms/android-9"), ("10", "/sdk/platforms/android-10")]
    (by decide) (by decide)⟩

/-- C5 counterexample: the empty string is an explicitly requested version
that matches no installed platform, yet resolution does not fail — the
code's falsy test treats `""` like no target and resolves to the latest
installed platform instead of raising the target-not-found error. -/
theorem get_platform_empty_target_counterexample :
    dget [("10", "/sdk/platforms/android-10")] "" = none ∧
    get_platform false "/sdk" [("android-10", true)] (some "") =
      Except.ok (PlatformTarget.init "10" "/sdk" "/sdk/platforms/android-10"
        false []).1 :=
  ⟨rfl, rfl⟩

/-- C5 (amended to non-empty requested versions): requesting a non-empty
version string that matches no installed platform fails with the error
message naming exactly the requested version and the SDK root, and no
platform descriptor is constructed (the result is an error, not a
descriptor). -/
theorem get_platform_missing_target (w : Bool) (sdk_path : String)
    (entries : List (String × Bool)) (t : String) (d : Dict)
    (hd : platformsDict sdk_path entries = some d) (ht : t ≠ "")
    (hmiss : dget d t = none) :
    get_platform w sdk_path entries (some t) =
      Except.error ("target \"" ++ t ++ "\" not found in \"" ++
        sdk_path ++ "\"") := by
  have hfal : pyFalsy (some t) = false := by simp [pyFalsy, ht]
  simp [get_platform, hd, hfal, hmiss]

/-- Witness for the amended C5: requesting version 11 with only android-10
installed. -/
theorem get_platform_missing_target_witness :
    platformsDict "/sdk" [("android-10", true)] =
      some [("10", "/sdk/platforms/android-10")] ∧
    ("11" : String) ≠ "" ∧
    dget [("10", "/sdk/platforms/android-10")] "11" = none ∧
    get_platform false "/sdk" [("android-10", true)] (some "11") =
      Except.error ("target \"" ++ "11" ++ "\" not found in \"" ++
        "/sdk" ++ "\"") :=
  ⟨by decide, by decide, by decide,
   get_platform_missing_target false "/sdk" [("android-10", true)] "11"
    [("10", "/sdk/platforms/android-10")] (by decide) (by decide) (by decide)⟩

/-- C10: constructing a platform descriptor returns the caller's
custom-paths mapping unchanged (the constructor merges the overrides into a
fresh per-instance table built from the defaults), so a later construction
that reuses the very mapping a previous construction was given — in
particular the shared mutable default — resolves exactly the tool paths it
would have resolved without the earlier construction. -/
theorem init_never_mutates_custom_paths (v s p : String) (w : Bool)
    (cp : Dict) (v2 s2 p2 : String) (w2 : Bool) :
    (PlatformTarget.init v s p w cp).2 = cp ∧
    PlatformTarget.init v2 s2 p2 w2 ((PlatformTarget.init v s p w cp).2) =
      PlatformTarget.init v2 s2 p2 w2 cp :=
  ⟨rfl, rfl⟩
